import Mathlib

/-!
Verification of the BynamoDB attribute-descriptor and model layer.

The `Attribute` descriptor is embedded from `src/bynamodb/attributes.py`.
The model layer (`bynamodb/model.py`), the filter-expression algebra
(`bynamodb/filter_expression.py`) and the exception classes
(`bynamodb/exceptions.py`) are not present in the source tree; where a
property depends on them they are modelled from the specification, and each
such definition is marked `Modelled from the spec:` in its doc comment.
-/

namespace Bynamodb

/-- The Python values that flow through this subsystem: `None`, booleans and
strings (attribute values, key values and type tags are all strings here). -/
inductive PyVal where
  | none
  | bool (b : Bool)
  | str (s : String)
  deriving DecidableEq, Repr

/-- Python truthiness for the values of `PyVal`, as used by `if x:` tests:
`None` is falsy, a bool is itself, a string is truthy iff non-empty. -/
def truthy : PyVal → Bool
  | PyVal.none => false
  | PyVal.bool b => b
  | PyVal.str s => s != ""

/-- A Python `dict` restricted to `PyVal` keys and values, as an insertion
ordered association list. `obj._data` and `put_item` payloads have this type. -/
abbrev Dict := List (PyVal × PyVal)

/-- `d.get(k)`: the value stored under the first occurrence of key `k`, or
`None` when the key is absent (Python `dict.get` with its default). -/
def dictGet (d : Dict) (k : PyVal) : PyVal :=
  match d with
  | [] => PyVal.none
  | (k', v') :: rest => if k' = k then v' else dictGet rest k

/-- `d[k] = v`: replace the binding of `k` in place if present (keeping the
insertion order of the other keys), otherwise append the new binding. -/
def dictSet (d : Dict) (k v : PyVal) : Dict :=
  match d with
  | [] => [(k, v)]
  | (k', v') :: rest => if k' = k then (k, v) :: rest else (k', v') :: dictSet rest k v

/-- `k in d`: whether the key `k` is bound in the dict. -/
def dictHasKey (d : Dict) (k : PyVal) : Bool :=
  match d with
  | [] => false
  | (k', _) :: rest => if k' = k then true else dictHasKey rest k

/-- The `Attribute` descriptor of `src/bynamodb/attributes.py`. The class
attributes `attr_name` (assigned later by the model meta class), `hash_key`,
`range_key` and `type` are fields here, together with the instance attributes
set by `__init__` (`hash_key`, `range_key`, `null`, `default`). Fields that
hold dynamically typed Python values have type `PyVal`; `type` is the boto
type string of the subclass, `Option.none` on the base class. -/
structure Attribute where
  attr_name : PyVal
  hash_key : PyVal
  range_key : PyVal
  null : PyVal
  default : PyVal
  type : Option String
  deriving DecidableEq, Repr

/-- `Attribute.__init__(self, hash_key=False, range_key=False, null=False,
default=None)` from `src/bynamodb/attributes.py` lines 20-25: the four
parameters are stored on the instance; `attr_name` and `type` keep their
class-level values (`None` on the base class). Python's positional-argument
binding means the first argument, whatever its type, becomes `hash_key`. -/
def Attribute.init (hash_key range_key null default : PyVal) : Attribute :=
  { attr_name := PyVal.none
    hash_key := hash_key
    range_key := range_key
    null := null
    default := default
    type := Option.none }

/-- `Attribute()` with every parameter left at its declared default. -/
def Attribute.initDefault : Attribute :=
  Attribute.init (PyVal.bool false) (PyVal.bool false) (PyVal.bool false) PyVal.none

/-- `STRING` from `boto.dynamodb2.types`. -/
def STRING : String := "S"

/-- `STRING_SET` from `boto.dynamodb2.types`. -/
def STRING_SET : String := "SS"

/-- `NUMBER` from `boto.dynamodb2.types`. -/
def NUMBER : String := "N"

/-- `NUMBER_SET` from `boto.dynamodb2.types`. -/
def NUMBER_SET : String := "NS"

/-- `BINARY` from `boto.dynamodb2.types`. -/
def BINARY : String := "B"

/-- `BINARY_SET` from `boto.dynamodb2.types`. -/
def BINARY_SET : String := "BS"

/-- `StringAttribute(...)`: the subclass fixes `type = STRING`. -/
def StringAttribute.init (hash_key range_key null default : PyVal) : Attribute :=
  { Attribute.init hash_key range_key null default with type := some STRING }

/-- `NumberAttribute(...)`: the subclass fixes `type = NUMBER`. -/
def NumberAttribute.init (hash_key range_key null default : PyVal) : Attribute :=
  { Attribute.init hash_key range_key null default with type := some NUMBER }

/-- A model instance as the descriptor protocol sees it: the `_data` mapping
from attribute name to value. -/
structure ModelInstance where
  _data : Dict
  deriving DecidableEq, Repr

/-- What `Attribute.__get__` can return: a stored value (instance access) or
the descriptor object itself (class access). -/
inductive GetResult where
  | value (v : PyVal)
  | descr (a : Attribute)
  deriving DecidableEq, Repr

/-- Outcome of `Attribute.__set__`: on success the post-state of the
descriptor and of the instance (explicit state passing for the mutation
`obj._data[self.attr_name] = value`); otherwise the `ValueError` message. -/
inductive SetResult where
  | ok (self : Attribute) (obj : ModelInstance)
  | err (msg : String)
  deriving DecidableEq, Repr

/-- `Attribute.__get__(self, obj, cls=None)` from `src/bynamodb/attributes.py`
lines 27-30: with an instance, return `obj._data.get(self.attr_name)`;
without one (class access, `obj is None`), return the descriptor itself. -/
def Attribute.get (self : Attribute) (obj : Option ModelInstance) : GetResult :=
  match obj with
  | some o => GetResult.value (dictGet o._data self.attr_name)
  | Option.none => GetResult.descr self

/-- `Attribute.__set__(self, obj, value)` from `src/bynamodb/attributes.py`
lines 32-36: with an instance, store the value under `self.attr_name` in
`obj._data` and return; without one, raise
`ValueError('Cannot change the class attribute')`. -/
def Attribute.set (self : Attribute) (obj : Option ModelInstance) (value : PyVal) : SetResult :=
  match obj with
  | some o => SetResult.ok self { o with _data := dictSet o._data self.attr_name value }
  | Option.none => SetResult.err "Cannot change the class attribute"

/-- The fault taxonomy of the model layer: the null-attribute fault
(`NullAttributeException`, naming the missing attribute) and the
schema-definition fault raised at model-class construction. -/
inductive BynaError where
  | nullAttribute (missing : String)
  | schemaDef (msg : String)
  deriving DecidableEq, Repr

/-- Modelled from the spec: the name-assignment step of the model meta class
(`bynamodb/model.py` is not in `src/`). "Name assignment happens exactly
once, at model-class construction, by matching each descriptor to the name it
was declared under in the owning class body": each `(declared-name,
descriptor)` pair of the class body gets `attr_name` set to the declared
name, unconditionally. -/
def assignAttrNames (decls : List (String × Attribute)) : List (String × Attribute) :=
  decls.map (fun p => (p.1, { p.2 with attr_name := PyVal.str p.1 }))

/-- A compiled model class: its declared attributes after name assignment,
keyed by the name each descriptor was declared under. -/
structure ModelClass where
  attrs : List (String × Attribute)
  deriving DecidableEq, Repr

/-- Modelled from the spec: the declared name of the model's primary hash-key
attribute (the unique attribute declared with a truthy `hash_key`), found by
the Model Schema Compiler of `bynamodb/model.py`. -/
def hashKeyName (m : ModelClass) : Option String :=
  (m.attrs.find? (fun p => truthy p.2.hash_key)).map Prod.fst

/-- Modelled from the spec: the declared name of the model's range-key
attribute, when one is declared. -/
def rangeKeyName (m : ModelClass) : Option String :=
  (m.attrs.find? (fun p => truthy p.2.range_key)).map Prod.fst

/-- A declared attribute is required-and-missing in a payload when its `null`
flag is falsy, it has no configured default, and the payload holds no
(non-null) value under its declared name. -/
def requiredMissing (p : String × Attribute) (data : Dict) : Bool :=
  !truthy p.2.null && p.2.default = PyVal.none
    && dictGet data (PyVal.str p.1) = PyVal.none

/-- Modelled from the spec: the validation rule of the Model Instance Runtime
(`bynamodb/model.py` is not in `src/`): "for every declared Attribute where
`nullable` is false and no `default` is configured, the corresponding value
in the instance's attribute map must be non-null; the first missing required
attribute found aborts validation". Returns the first violating attribute's
declared name. -/
def missingRequired (m : ModelClass) (data : Dict) : Option String :=
  (m.attrs.find? (fun p => requiredMissing p data)).map Prod.fst

/-- The external store as the model layer observes it: the items it holds and
a call counter for the put operations issued to it. -/
structure Store where
  items : List Dict
  putCalls : Nat
  deriving DecidableEq, Repr

/-- Modelled from the spec: `Model.put_item(data)` of `bynamodb/model.py`
(not in `src/`): "validates, then forwards to the store; fails before any
network call if validation fails". On a validation failure the null-attribute
fault is returned and the store is untouched; otherwise the item is sent to
the store (one put call). -/
def put_item (m : ModelClass) (data : Dict) (st : Store) :
    Except BynaError Unit × Store :=
  match missingRequired m data with
  | some n => (Except.error (BynaError.nullAttribute n), st)
  | Option.none =>
    (Except.ok (), { items := data :: st.items, putCalls := st.putCalls + 1 })

/-- Modelled from the spec: instance `save()` of `bynamodb/model.py` (not in
`src/`): validates the instance's attribute map, then forwards it to the
store, with the same fail-before-any-store-call policy as `put_item`. -/
def save (m : ModelClass) (inst : ModelInstance) (st : Store) :
    Except BynaError Unit × Store :=
  put_item m inst._data st

/-- Modelled from the spec: `Model.get_item(hash_key, range_key)` of
`bynamodb/model.py` (not in `src/`): look up the stored item whose hash-key
attribute equals `hk` (and whose range-key attribute equals `rk`, when the
model declares a range key) and rehydrate it into an instance. -/
def get_item (m : ModelClass) (st : Store) (hk rk : PyVal) : Option ModelInstance :=
  match hashKeyName m with
  | Option.none => Option.none
  | some hn =>
    (st.items.find? (fun d =>
      dictGet d (PyVal.str hn) = hk
        && match rangeKeyName m with
           | some rn => dictGet d (PyVal.str rn) = rk
           | Option.none => true)).map (fun d => { _data := d })

/-- Modelled from the spec: the comparison leaves of the Filter Expression
Algebra of `bynamodb/filter_expression.py` (not in `src/`); only the leaves
the claims exercise are included. A leaf carries an attribute name and an
operand. -/
inductive FilterExp where
  | GT (attr : String) (operand : PyVal)
  | EQ (attr : String) (operand : PyVal)
  deriving DecidableEq, Repr

/-- Lexicographic comparison of character lists by code point, the order
Python uses on strings. -/
def charListLt : List Char → List Char → Bool
  | [], [] => false
  | [], _ :: _ => true
  | _ :: _, [] => false
  | c :: cs, d :: ds =>
    if c.toNat < d.toNat then true
    else if d.toNat < c.toNat then false
    else charListLt cs ds

/-- Python `a < b` on strings: lexicographic by code point. -/
def strLt (a b : String) : Bool := charListLt a.data b.data

/-- Python string comparison, `false` on the non-string values that the
store would reject. -/
def pyLt : PyVal → PyVal → Bool
  | PyVal.str a, PyVal.str b => strLt a b
  | _, _ => false

/-- Modelled from the spec: the store-side meaning of a compiled filter on an
item: `GT(attr, v)` holds when the item's value under `attr` is strictly
greater than `v`; `EQ(attr, v)` when it equals `v`. -/
def evalFilter (f : FilterExp) (d : Dict) : Bool :=
  match f with
  | FilterExp.GT a v => pyLt v (dictGet d (PyVal.str a))
  | FilterExp.EQ a v => dictGet d (PyVal.str a) = v

/-- Modelled from the spec: `Model.scan(filter_builder)` of
`bynamodb/model.py` (not in `src/`): return the stored items, restricted to
those satisfying the compiled filter when one is given, rehydrated. -/
def scan (_cls : ModelClass) (st : Store) (filter_builder : Option FilterExp) :
    List ModelInstance :=
  let raw := match filter_builder with
    | Option.none => st.items
    | some f => st.items.filter (fun d => evalFilter f d)
  raw.map (fun d => { _data := d })

/-- Modelled from the spec: a local-secondary-index declaration
(`AllIndex` of `bynamodb/model.py`, not in `src/`): an index name, a
`hash_key` attribute name and a `range_key` attribute name. -/
structure LocalIndexDecl where
  idx_name : String
  hash_key : String
  range_key : String
  deriving DecidableEq, Repr

/-- Modelled from the spec: the local-index check of the Model Schema
Compiler (`bynamodb/model.py`, not in `src/`): "a local index requires
`hash_key` to equal the model's own primary hash key (enforced at
schema-compile time — mismatch is a configuration fault)". -/
def checkLocalIndexes (m : ModelClass) (idxs : List LocalIndexDecl) :
    Except BynaError Unit :=
  match hashKeyName m with
  | Option.none => Except.error (BynaError.schemaDef "hash key is not declared")
  | some hn =>
    match idxs.find? (fun i => i.hash_key != hn) with
    | some i => Except.error (BynaError.schemaDef
        ("local index " ++ i.idx_name ++ " must have the hash key of the model"))
    | Option.none => Except.ok ()

/-- Modelled from the spec: model-class construction (the meta class of
`bynamodb/model.py`, not in `src/`): assign attribute names, then compile the
schema; a failing schema check is a fatal schema-definition fault and no
usable class value is produced. -/
def buildModel (decls : List (String × Attribute)) (idxs : List LocalIndexDecl) :
    Except BynaError ModelClass :=
  let m : ModelClass := { attrs := assignAttrNames decls }
  match checkLocalIndexes m idxs with
  | Except.error e => Except.error e
  | Except.ok _ => Except.ok m

/-- The attribute declarations of the `TestModel` fixture of
`src/tests/test_model.py`: a string hash key, a string range key and one
plain string attribute. -/
def testModelDecls : List (String × Attribute) :=
  [("hash_key_attr", StringAttribute.init (PyVal.bool true) (PyVal.bool false) (PyVal.bool false) PyVal.none),
   ("range_key_attr", StringAttribute.init (PyVal.bool false) (PyVal.bool true) (PyVal.bool false) PyVal.none),
   ("attr_1", StringAttribute.init (PyVal.bool false) (PyVal.bool false) (PyVal.bool false) PyVal.none)]

/-- The `TestModel` fixture after model-class construction. -/
def testModel : ModelClass := { attrs := assignAttrNames testModelDecls }

/-- A store holding no items, with no calls issued yet. -/
def emptyStore : Store := { items := [], putCalls := 0 }

/-- The full payload of `test_put_item`. -/
def testData : Dict :=
  [(PyVal.str "hash_key_attr", PyVal.str "Hash Key Value"),
   (PyVal.str "range_key_attr", PyVal.str "Range Key Value"),
   (PyVal.str "attr_1", PyVal.str "Attribute1 Value")]

/-- The payload of `test_put_item_with_missing_attr`: `attr_1` absent. -/
def testDataMissing : Dict :=
  [(PyVal.str "hash_key_attr", PyVal.str "hash_key"),
   (PyVal.str "range_key_attr", PyVal.str "range_key")]

/-- A `StringAttribute` with a configured default and an assigned name, the
input of the read-path analysis. -/
def defaultedAttr : Attribute :=
  { StringAttribute.init (PyVal.bool false) (PyVal.bool false) (PyVal.bool false)
      (PyVal.str "fallback") with attr_name := PyVal.str "attr_1" }

/-- The attribute declarations of the `QueryTestModel` fixture: a string hash
key `published_at` and a string range key `title`. -/
def queryModelDecls : List (String × Attribute) :=
  [("published_at", StringAttribute.init (PyVal.bool true) (PyVal.bool false) (PyVal.bool false) PyVal.none),
   ("title", StringAttribute.init (PyVal.bool false) (PyVal.bool true) (PyVal.bool false) PyVal.none)]

/-- The `QueryTestModel` fixture after model-class construction. -/
def queryModel : ModelClass := { attrs := assignAttrNames queryModelDecls }

/-- One item of the `fx_query_test_items` fixture. -/
def queryItem (p t : String) : Dict :=
  [(PyVal.str "published_at", PyVal.str p), (PyVal.str "title", PyVal.str t)]

/-- The six items of the `fx_query_test_items` fixture: `published_at` ranges
over aaaaa, aaaaa, bbbbb, ccccc, ddddd, eeeee, with distinct titles. -/
def queryItems : List Dict :=
  [queryItem "aaaaa" "00000", queryItem "aaaaa" "11111", queryItem "bbbbb" "22222",
   queryItem "ccccc" "33333", queryItem "ddddd" "44444", queryItem "eeeee" "55555"]

/-- The store after the six `put_item` calls of the fixture. -/
def queryStore : Store :=
  queryItems.foldl (fun st d => (put_item queryModel d st).2) emptyStore

/-- The attribute declarations of the `fx_table_with_local_index` fixture:
`attr_1` hash key, `attr_2` range key, `attr_3` plain. -/
def localIdxDecls : List (String × Attribute) :=
  [("attr_1", StringAttribute.init (PyVal.bool true) (PyVal.bool false) (PyVal.bool false) PyVal.none),
   ("attr_2", StringAttribute.init (PyVal.bool false) (PyVal.bool true) (PyVal.bool false) PyVal.none),
   ("attr_3", StringAttribute.init (PyVal.bool false) (PyVal.bool false) (PyVal.bool false) PyVal.none)]

/-- A local index whose declared hash key (`attr_2`) differs from the model's
primary hash key (`attr_1`). -/
def badLocalIndex : LocalIndexDecl :=
  { idx_name := "TestIndex", hash_key := "attr_2", range_key := "attr_3" }

/-! ### Dictionary lemmas -/

theorem dictGet_dictSet_self (d : Dict) (k v : PyVal) :
    dictGet (dictSet d k v) k = v := by
  induction d with
  | nil => simp [dictSet, dictGet]
  | cons hd tl ih =>
    obtain ⟨k', v'⟩ := hd
    by_cases h : k' = k
    · simp [dictSet, dictGet, h]
    · simp [dictSet, dictGet, h, ih]

theorem dictGet_dictSet_ne (d : Dict) (k v k' : PyVal) (h : k' ≠ k) :
    dictGet (dictSet d k v) k' = dictGet d k' := by
  have h' : ¬(k = k') := fun e => h e.symm
  induction d with
  | nil => simp [dictSet, dictGet, h']
  | cons hd tl ih =>
    obtain ⟨k₀, v₀⟩ := hd
    by_cases hk : k₀ = k
    · subst hk
      simp [dictSet, dictGet, h']
    · simp [dictSet, dictGet, hk, ih]

theorem dictHasKey_dictSet_ne (d : Dict) (k v k' : PyVal) (h : k' ≠ k) :
    dictHasKey (dictSet d k v) k' = dictHasKey d k' := by
  have h' : ¬(k = k') := fun e => h e.symm
  induction d with
  | nil => simp [dictSet, dictHasKey, h']
  | cons hd tl ih =>
    obtain ⟨k₀, v₀⟩ := hd
    by_cases hk : k₀ = k
    · subst hk
      simp [dictSet, dictHasKey, h']
    · simp [dictSet, dictHasKey, hk, ih]

theorem dictGet_eq_none_of_hasKey_false (d : Dict) (k : PyVal)
    (h : dictHasKey d k = false) : dictGet d k = PyVal.none := by
  induction d with
  | nil => rfl
  | cons hd tl ih =>
    obtain ⟨k₀, v₀⟩ := hd
    by_cases hk : k₀ = k
    · simp [dictHasKey, hk] at h
    · simp [dictHasKey, hk] at h
      simp [dictGet, hk, ih h]

/-! ### Claims about the Attribute descriptor (`src/bynamodb/attributes.py`) -/

/-- C3: for every Attribute descriptor and every value, assigning to the
attribute through the model class itself (no instance) raises the misuse
fault `ValueError('Cannot change the class attribute')` immediately, never
deferring or silently succeeding. -/
theorem set_through_class_raises (self : Attribute) (value : PyVal) :
    Attribute.set self Option.none value =
      SetResult.err "Cannot change the class attribute" := rfl

/-- C10: for every Attribute descriptor, reading the attribute through the
model class itself (no instance) returns the descriptor object itself
unchanged — not a stored value, a default, or an error. -/
theorem get_through_class_returns_descriptor (a : Attribute) :
    Attribute.get a Option.none = GetResult.descr a := rfl

/-- C9: assigning an attribute through an instance changes only the entry
under the attribute's assigned name in the instance's attribute map: the
descriptor itself (hence all its fields: attr_name, hash_key, range_key,
null, default, type) is unchanged, the written entry holds the new value,
and every other key's value and presence are unchanged. -/
theorem set_frame_property (a : Attribute) (o : ModelInstance) (v : PyVal)
    (a' : Attribute) (o' : ModelInstance)
    (h : Attribute.set a (some o) v = SetResult.ok a' o') :
    a' = a ∧ dictGet o'._data a.attr_name = v ∧
    (∀ k, k ≠ a.attr_name → dictGet o'._data k = dictGet o._data k) ∧
    (∀ k, k ≠ a.attr_name → dictHasKey o'._data k = dictHasKey o._data k) := by
  simp only [Attribute.set] at h
  injection h with h1 h2
  subst h1
  subst h2
  refine ⟨rfl, dictGet_dictSet_self _ _ _, ?_, ?_⟩
  · intro k hk
    exact dictGet_dictSet_ne _ _ _ _ hk
  · intro k hk
    exact dictHasKey_dictSet_ne _ _ _ _ hk

/-- Witness for C9 at a concrete input: writing `"v"` under `attr_1` leaves
the binding of `"other"` untouched. -/
theorem set_frame_property_witness :
    (Attribute.set defaultedAttr
        (some { _data := [(PyVal.str "other", PyVal.str "keep")] }) (PyVal.str "v") =
      SetResult.ok defaultedAttr
        { _data := [(PyVal.str "other", PyVal.str "keep"),
                    (PyVal.str "attr_1", PyVal.str "v")] }) ∧
    dictGet [(PyVal.str "other", PyVal.str "keep"), (PyVal.str "attr_1", PyVal.str "v")]
        (PyVal.str "other")
      = dictGet [(PyVal.str "other", PyVal.str "keep")] (PyVal.str "other") :=
  ⟨by decide,
   (set_frame_property defaultedAttr
      { _data := [(PyVal.str "other", PyVal.str "keep")] } (PyVal.str "v")
      defaultedAttr
      { _data := [(PyVal.str "other", PyVal.str "keep"),
                  (PyVal.str "attr_1", PyVal.str "v")] }
      (by decide)).2.2.1 (PyVal.str "other") (by decide)⟩

/-- C4 counterexample: the read path never consults the configured default.
`defaultedAttr` has default `"fallback"`, its name is absent from the
instance's map, yet `__get__` yields `None`, not the default — refuting "or
the attribute's configured default when no value is stored". -/
theorem get_ignores_default_counterexample :
    defaultedAttr.default = PyVal.str "fallback" ∧
    dictHasKey ([] : Dict) defaultedAttr.attr_name = false ∧
    Attribute.get defaultedAttr (some { _data := [] }) = GetResult.value PyVal.none ∧
    PyVal.none ≠ PyVal.str "fallback" :=
  ⟨rfl, rfl, rfl, by decide⟩

/-- C4 as amended: reading through an instance yields the value stored under
the attribute's assigned name, and `None` (not the configured default) when
no value is stored; writing stores the value under the assigned name, so a
read after a write yields the written value. -/
theorem instance_read_write_contract (a : Attribute) (o : ModelInstance) (v : PyVal) :
    Attribute.get a (some o) = GetResult.value (dictGet o._data a.attr_name) ∧
    (dictHasKey o._data a.attr_name = false →
      Attribute.get a (some o) = GetResult.value PyVal.none) ∧
    (∀ a' o', Attribute.set a (some o) v = SetResult.ok a' o' →
      Attribute.get a' (some o') = GetResult.value v) := by
  refine ⟨rfl, ?_, ?_⟩
  · intro h
    simp [Attribute.get, dictGet_eq_none_of_hasKey_false _ _ h]
  · intro a' o' h
    simp only [Attribute.set] at h
    injection h with h1 h2
    subst h1
    subst h2
    simp [Attribute.get, dictGet_dictSet_self]

/-- Witness for the amended C4 at a concrete input: on an empty map the read
yields `None` despite the configured default, and a read after writing
`"written"` yields `"written"`. -/
theorem instance_read_write_contract_witness :
    (dictHasKey ([] : Dict) defaultedAttr.attr_name = false ∧
      Attribute.get defaultedAttr (some { _data := [] }) = GetResult.value PyVal.none) ∧
    (Attribute.set defaultedAttr (some { _data := [] }) (PyVal.str "written") =
        SetResult.ok defaultedAttr { _data := [(PyVal.str "attr_1", PyVal.str "written")] } ∧
      Attribute.get defaultedAttr (some { _data := [(PyVal.str "attr_1", PyVal.str "written")] }) =
        GetResult.value (PyVal.str "written")) :=
  ⟨⟨by decide,
    (instance_read_write_contract defaultedAttr { _data := [] } (PyVal.str "written")).2.1
      (by decide)⟩,
   ⟨by decide,
    (instance_read_write_contract defaultedAttr { _data := [] } (PyVal.str "written")).2.2
      defaultedAttr { _data := [(PyVal.str "attr_1", PyVal.str "written")] } (by decide)⟩⟩

/-- C5 counterexample: the constructor's first parameter is `hash_key`, not a
semantic type tag. Calling it with the type tag `'S'` in first position (the
claimed `Attribute(STRING)` shape) leaves `type` unset (`None`) and stores
`'S'` in `hash_key`, whose truthiness makes the result a hash-key attribute —
refuting both "its first parameter is the semantic type tag" and "omitting
the optional parameters yields a non-hash-key ... attribute". -/
theorem init_first_param_not_type_counterexample :
    (Attribute.init (PyVal.str STRING) (PyVal.bool false) (PyVal.bool false) PyVal.none).type
        = Option.none ∧
    (Attribute.init (PyVal.str STRING) (PyVal.bool false) (PyVal.bool false) PyVal.none).hash_key
        = PyVal.str STRING ∧
    truthy (Attribute.init (PyVal.str STRING) (PyVal.bool false) (PyVal.bool false) PyVal.none).hash_key
        = true :=
  ⟨rfl, rfl, by decide⟩

/-- C5 as amended: the constructor accepts
`(hash_key=False, range_key=False, null=False, default=None)`, each parameter
landing in its field; the semantic type tag is not a constructor parameter
but a class attribute fixed per subclass (`None` on the base class, `STRING`
on `StringAttribute`, `NUMBER` on `NumberAttribute`); omitting every
parameter yields a non-hash-key, non-range-key, non-nullable attribute with
no default. -/
theorem init_param_contract (hk rk nl df : PyVal) :
    (Attribute.init hk rk nl df).hash_key = hk ∧
    (Attribute.init hk rk nl df).range_key = rk ∧
    (Attribute.init hk rk nl df).null = nl ∧
    (Attribute.init hk rk nl df).default = df ∧
    (Attribute.init hk rk nl df).type = Option.none ∧
    (Attribute.init hk rk nl df).attr_name = PyVal.none ∧
    Attribute.initDefault =
      Attribute.init (PyVal.bool false) (PyVal.bool false) (PyVal.bool false) PyVal.none ∧
    (StringAttribute.init hk rk nl df).type = some STRING ∧
    (NumberAttribute.init hk rk nl df).type = some NUMBER :=
  ⟨rfl, rfl, rfl, rfl, rfl, rfl, rfl, rfl, rfl⟩

/-! ### Claims about the model layer (modelled from the spec) -/

/-- C1: for every model class, every descriptor declared in its body gets
`attr_name` equal to the identifier it was declared under; and the assigned
name overrides whatever `attr_name` held before class construction — the
result of name assignment is independent of any previously stored name. -/
theorem assignAttrNames_identity (decls : List (String × Attribute)) :
    (∀ q, q ∈ assignAttrNames decls → q.2.attr_name = PyVal.str q.1) ∧
    (∀ x : PyVal,
      assignAttrNames (decls.map (fun p => (p.1, { p.2 with attr_name := x }))) =
        assignAttrNames decls) := by
  constructor
  · intro q hq
    simp only [assignAttrNames, List.mem_map] at hq
    obtain ⟨p, _, rfl⟩ := hq
    rfl
  · intro x
    simp only [assignAttrNames, List.map_map]
    congr 1

/-- Witness for C1 at the `TestModel` fixture: the descriptor declared under
`attr_1` carries the attribute name `attr_1`. -/
theorem assignAttrNames_identity_witness :
    (("attr_1",
        ({ StringAttribute.init (PyVal.bool false) (PyVal.bool false) (PyVal.bool false)
            PyVal.none with attr_name := PyVal.str "attr_1" } : Attribute))
      ∈ assignAttrNames testModelDecls) ∧
    ({ StringAttribute.init (PyVal.bool false) (PyVal.bool false) (PyVal.bool false)
        PyVal.none with attr_name := PyVal.str "attr_1" } : Attribute).attr_name
      = PyVal.str "attr_1" :=
  ⟨by decide,
   (assignAttrNames_identity testModelDecls).1
     ("attr_1",
       { StringAttribute.init (PyVal.bool false) (PyVal.bool false) (PyVal.bool false)
           PyVal.none with attr_name := PyVal.str "attr_1" })
     (by decide)⟩

/-- C2: when some declared attribute is non-nullable, has no default and is
null/absent in the payload, `put_item` returns the null-attribute fault
naming such a missing attribute, the store is untouched (zero put calls
issued), and `save` behaves exactly as `put_item` on the instance's data. -/
theorem put_item_missing_required_fails_before_store
    (m : ModelClass) (data : Dict) (st : Store)
    (h : ∃ p, p ∈ m.attrs ∧ requiredMissing p data = true) :
    (∃ n, (put_item m data st).1 = Except.error (BynaError.nullAttribute n) ∧
        ∃ a, (n, a) ∈ m.attrs ∧ requiredMissing (n, a) data = true) ∧
    (put_item m data st).2 = st ∧
    save m { _data := data } st = put_item m data st := by
  have hsome : (m.attrs.find? (fun p => requiredMissing p data)).isSome := by
    rw [List.find?_isSome]
    obtain ⟨p, hp, hr⟩ := h
    exact ⟨p, hp, hr⟩
  obtain ⟨p, hfind⟩ := Option.isSome_iff_exists.mp hsome
  have hmem := List.mem_of_find?_eq_some hfind
  have hpred := List.find?_some hfind
  refine ⟨⟨p.1, ?_, p.2, ?_, hpred⟩, ?_, rfl⟩
  · simp [put_item, missingRequired, hfind]
  · exact hmem
  · simp [put_item, missingRequired, hfind]

/-- Witness for C2 at the `test_put_item_with_missing_attr` input: `attr_1`
is required, absent from the payload, and `put_item` fails with the store
left untouched. -/
theorem put_item_missing_required_witness :
    ((("attr_1",
        ({ StringAttribute.init (PyVal.bool false) (PyVal.bool false) (PyVal.bool false)
            PyVal.none with attr_name := PyVal.str "attr_1" } : Attribute))
       ∈ testModel.attrs) ∧
      requiredMissing
        ("attr_1",
          { StringAttribute.init (PyVal.bool false) (PyVal.bool false) (PyVal.bool false)
              PyVal.none with attr_name := PyVal.str "attr_1" })
        testDataMissing = true) ∧
    ((∃ n, (put_item testModel testDataMissing emptyStore).1 =
          Except.error (BynaError.nullAttribute n) ∧
        ∃ a, (n, a) ∈ testModel.attrs ∧ requiredMissing (n, a) testDataMissing = true) ∧
      (put_item testModel testDataMissing emptyStore).2 = emptyStore ∧
      save testModel { _data := testDataMissing } emptyStore =
        put_item testModel testDataMissing emptyStore) :=
  ⟨⟨by decide, by decide⟩,
   put_item_missing_required_fails_before_store testModel testDataMissing emptyStore
     ⟨("attr_1",
        { StringAttribute.init (PyVal.bool false) (PyVal.bool false) (PyVal.bool false)
            PyVal.none with attr_name := PyVal.str "attr_1" }),
      by decide, by decide⟩⟩

/-- C6: any payload accepted by `put_item` (validation passes) is returned by
a subsequent `get_item` with the payload's hash-key value (and its range-key
value, when the model declares a range key): the rehydrated instance holds
exactly the payload's value under every attribute name. -/
theorem put_get_roundtrip (m : ModelClass) (data : Dict) (st : Store)
    (hn : String) (rk : PyVal)
    (hval : missingRequired m data = Option.none)
    (hhash : hashKeyName m = some hn)
    (hrange : ∀ rn, rangeKeyName m = some rn → rk = dictGet data (PyVal.str rn)) :
    ∃ item : ModelInstance,
      get_item m (put_item m data st).2 (dictGet data (PyVal.str hn)) rk = some item ∧
      ∀ k, dictGet item._data k = dictGet data k := by
  refine ⟨{ _data := data }, ?_, fun k => rfl⟩
  have hput : (put_item m data st).2 =
      { items := data :: st.items, putCalls := st.putCalls + 1 } := by
    simp [put_item, hval]
  rw [hput]
  simp only [get_item, hhash]
  cases hr : rangeKeyName m with
  | none => simp [List.find?]
  | some rn =>
    have h' := hrange rn hr
    subst h'
    simp [List.find?]

/-- Witness for C6 at the `test_put_item` input: putting the three-attribute
payload and getting it back by its keys yields an instance agreeing with the
payload on every attribute name. -/
theorem put_get_roundtrip_witness :
    missingRequired testModel testData = Option.none ∧
    hashKeyName testModel = some "hash_key_attr" ∧
    ∃ item, get_item testModel (put_item testModel testData emptyStore).2
        (dictGet testData (PyVal.str "hash_key_attr")) (PyVal.str "Range Key Value")
        = some item ∧
      ∀ k, dictGet item._data k = dictGet testData k :=
  ⟨by decide, by decide,
   put_get_roundtrip testModel testData emptyStore "hash_key_attr"
     (PyVal.str "Range Key Value") (by decide) (by decide)
     (fun rn h => by
        have hr : rangeKeyName testModel = some "range_key_attr" := by decide
        rw [hr] at h
        injection h with h'
        subst h'
        decide)⟩

/-- C7: over the six-item fixture (`published_at` in aaaaa, aaaaa, bbbbb,
ccccc, ddddd, eeeee), scanning with the filter `GT('published_at', 'bbbbb')`
returns exactly the three items whose `published_at` is strictly greater than
`bbbbb` — eeeee, ddddd, ccccc in store order — and no others, while an
unfiltered scan returns all six. -/
theorem scan_gt_filter_exact :
    ((scan queryModel queryStore
        (some (FilterExp.GT "published_at" (PyVal.str "bbbbb")))).map
        (fun i => dictGet i._data (PyVal.str "published_at")) =
      [PyVal.str "eeeee", PyVal.str "ddddd", PyVal.str "ccccc"]) ∧
    (scan queryModel queryStore
        (some (FilterExp.GT "published_at" (PyVal.str "bbbbb")))).length = 3 ∧
    (scan queryModel queryStore Option.none).length = 6 := by
  decide

/-- C8: whenever a local index declares a hash key different from the model's
primary hash key, model-class construction fails with a schema-definition
fault, so no usable class value is produced. -/
theorem local_index_mismatch_fails (decls : List (String × Attribute))
    (idxs : List LocalIndexDecl) (hn : String) (i : LocalIndexDecl)
    (hhash : hashKeyName { attrs := assignAttrNames decls } = some hn)
    (hmem : i ∈ idxs) (hne : i.hash_key ≠ hn) :
    ∃ msg, buildModel decls idxs = Except.error (BynaError.schemaDef msg) := by
  have hsome : (idxs.find? (fun j => j.hash_key != hn)).isSome := by
    rw [List.find?_isSome]
    exact ⟨i, hmem, by simpa using hne⟩
  obtain ⟨j, hj⟩ := Option.isSome_iff_exists.mp hsome
  refine ⟨"local index " ++ j.idx_name ++ " must have the hash key of the model", ?_⟩
  simp [buildModel, checkLocalIndexes, hhash, hj]

/-- Witness for C8 at a concrete fixture: a local index with hash key
`attr_2` on a model whose primary hash key is `attr_1` makes class
construction fail. -/
theorem local_index_mismatch_witness :
    hashKeyName { attrs := assignAttrNames localIdxDecls } = some "attr_1" ∧
    badLocalIndex ∈ [badLocalIndex] ∧
    badLocalIndex.hash_key ≠ "attr_1" ∧
    ∃ msg, buildModel localIdxDecls [badLocalIndex] =
        Except.error (BynaError.schemaDef msg) :=
  ⟨by decide, by decide, by decide,
   local_index_mismatch_fails localIdxDecls [badLocalIndex] "attr_1" badLocalIndex
     (by decide) (by decide) (by decide)⟩

end Bynamodb
